import Mathlib

/-!
Shallow embedding of the conversation-orchestration core of the loftai
repository (src/agent_graph.py, src/hubspot_client.py, src/quote_generator.py),
with theorems settling the specification claims about it.

External collaborators (Pinecone search, the generative model, the HubSpot
HTTP API, the PDF canvas) are modelled as explicit parameters or as a small
CRM state with the documented API semantics (409 on duplicate contact email,
fresh ids on create).  Python exceptions are modelled as `Except String`;
Python float arithmetic is modelled by exact rational arithmetic (the values
exercised by the claims are exactly representable).
-/

namespace LoftAI

/-! ## String helpers mirroring the Python primitives used by the source -/

/-- Python substring containment (`pat in hay`) on character lists:
true when `pat` occurs contiguously inside `hay`. -/
def containsSubAux : List Char → List Char → Bool
  | [], pat => pat.isPrefixOf []
  | c :: t, pat => pat.isPrefixOf (c :: t) || containsSubAux t pat

/-- Python `pat in s` on strings. -/
def strContains (s pat : String) : Bool :=
  containsSubAux s.data pat.data

/-- Python `str.lower()` (ASCII case folding, which covers every keyword and
token the source compares against). -/
def pyLower (s : String) : String :=
  String.mk (s.data.map Char.toLower)

/-- Python `str.replace` worker: leftmost, non-overlapping replacement of a
non-empty pattern, skipping past each match.  The fuel argument (instantiated
with the input length, an upper bound on the number of steps) makes the
recursion structural so that concrete instances reduce in the kernel. -/
def pyReplaceFuel (pat rep : List Char) : Nat → List Char → List Char
  | _, [] => []
  | 0, l => l
  | fuel + 1, c :: t =>
    if pat ≠ [] ∧ pat.isPrefixOf (c :: t) = true then
      rep ++ pyReplaceFuel pat rep fuel ((c :: t).drop pat.length)
    else
      c :: pyReplaceFuel pat rep fuel t

/-- Python `s.replace(pat, rep)` for the non-empty patterns the source uses. -/
def pyReplace (s pat rep : String) : String :=
  String.mk (pyReplaceFuel pat.data rep.data s.data.length s.data)

/-- Python `str.strip()`: drop leading and trailing whitespace. -/
def pyStrip (s : String) : String :=
  String.mk (((s.data.dropWhile Char.isWhitespace).reverse.dropWhile Char.isWhitespace).reverse)

/-- Worker for splitting on a single separator character. -/
def splitOnCharAux (sep : Char) : List Char → List Char → List (List Char)
  | [], acc => [acc.reverse]
  | c :: t, acc =>
    if c = sep then acc.reverse :: splitOnCharAux sep t []
    else splitOnCharAux sep t (c :: acc)

/-- Python `s.split(sep)` for a single-character separator (empty pieces are
kept, and the empty string yields `[""]`, as in Python). -/
def splitOnChar (sep : Char) (s : String) : List String :=
  (splitOnCharAux sep s.data []).map String.mk

/-! ## Messages and agent state (src/agent_graph.py) -/

/-- Message roles: `HumanMessage`, `AIMessage`, `ToolMessage` from the source. -/
inductive Role where
  | user
  | assistant
  | tool
deriving DecidableEq, Repr

/-- A LangChain message as used by `agent_graph.py`: a role, text content
(`""` models Python-falsy empty content) and the list of pending tool-call
names (`tool_calls`). -/
structure Msg where
  role : Role
  content : String
  toolCalls : List String := []
deriving DecidableEq, Repr

/-- The `AgentState` TypedDict of `agent_graph.py`.  `user_role` and `context`
are `Option` because a TypedDict key can be absent (`state.get(...)`). -/
structure AgentState where
  messages : List Msg
  user_role : Option String := none
  context : Option String := none
deriving DecidableEq, Repr

/-! ## classify_user_node (src/agent_graph.py lines 139-160) -/

/-- The fixed realtor keyword list of `classify_user_node`. -/
def realtor_keywords : List String :=
  ["selling", "listing", "client", "market", "roi", "investor", "flip",
   "broker", "agent", "commission", "pre-listing", "market value", "closing", "real estate"]

/-- Fresh classification branch of `classify_user_node`: scan the lower-cased
last message for realtor keywords; default is homeowner.  Indexing
`state["messages"][-1]` on an empty history raises, modelled as `Except.error`. -/
def classifyFresh (s : AgentState) : Except String String :=
  match s.messages.getLast? with
  | none => Except.error "IndexError"
  | some m =>
    let last_msg := pyLower m.content
    if realtor_keywords.any (fun k => strContains last_msg k) then
      Except.ok "realtor"
    else
      Except.ok "homeowner"

/-- The `classify_user_node` of `agent_graph.py`, returning the new
`user_role` value.  If the role is already set (truthy and not `"unknown"`)
it is returned unchanged; otherwise the keyword scan runs. -/
def classify_user_node (s : AgentState) : Except String String :=
  match s.user_role with
  | some r =>
    if r ≠ "" ∧ r ≠ "unknown" then Except.ok r else classifyFresh s
  | none => classifyFresh s

/-! ## retrieve_node (src/agent_graph.py lines 162-177)

The Pinecone `vectorstore.similarity_search` call is an external collaborator;
it is modelled as a parameter returning either the ranked passages
(`page_content` strings) or a raised exception (`Except.error`).  The source
wraps the call in no try/except, so an error propagates. -/

/-- The `retrieve_node` of `agent_graph.py`: builds the role-biased search
query, runs the external search with k = 4, and joins the passages with
newlines into the new `context` value (returned here). -/
def retrieve_node (search : String → Nat → Except String (List String))
    (s : AgentState) : Except String String :=
  match s.messages.getLast? with
  | none => Except.error "IndexError"
  | some last_msg =>
    let query := last_msg.content
    let role := s.user_role.getD "homeowner"
    let search_query :=
      if role = "realtor" then
        query ++ " services for realtors investors ROI renovation packages commission partnership pre-listing"
      else
        query ++ " luxury home design renovation feng shui services process paint of hope venicasa lifestyle"
    match search search_query 4 with
    | Except.ok docs => Except.ok (String.intercalate "\n" docs)
    | Except.error err => Except.error err

/-! ## generate_node (src/agent_graph.py lines 179-328)

The system prompts are transcribed verbatim from the Python f-strings
(including their triple-quoted-string indentation).  `generate_node` here
returns the composed system prompt, the message list handed to the model
(`clean_messages`, after the admin-token rewrite of its last element), and the
messages as they remain in the agent state (the sanitizer mutates message
objects in place, so its effect is visible in the state; the admin rewrite
replaces an element of the local `clean_messages` list only). -/

/-- The `conversion_instruction` text set when `human_msg_count >= 3`. -/
def conversion_text : String :=
  "\n        [CRITICAL INSTRUCTION: LEAD CONVERSION PHASE ACTIVATED]\n        The conversation has progressed. You MUST end your response with this exact text:\n        \"Would you like to schedule a call with one of our experts for a more detailed discussion?\"\n        \n        Then, strictly on a new line, provide this link:\n        👉 [https://calendly.com/fandlgroupllc/30min]\n        "

/-- The admin-mode system prompt (f-string with `{context}` interpolated). -/
def admin_system_prompt (context : String) : String :=
  "\n        You are the INTERNAL Business Intelligence Unit for F&L Design Builders.\n        Your goal is to assist the owner (Felicity/Lorena) with operations, strategy, and lead analysis.\n        \n        INTERNAL KNOWLEDGE BASE CONTEXT: "
  ++ context ++
  "\n        \n        YOUR EXECUTIVE CAPABILITIES:\n        1. **Lead Analysis:** Summarize recent interactions based on the context provided.\n        2. **Operational Support:** Draft internal emails to the Project Manager or Crew regarding site reports.\n        3. **Strategic Advice:** Advise on how to leverage the 'Venicasa' partnership or 'Paint of Hope' for current marketing campaigns.\n        4. **Data Extraction:** Extract key budget and timeline details from chat history.\n        \n        TONE: Direct, Analytical, Professional. Bullet points only. No fluff.\n        \n        CRITICAL ACTION TRIGGER:\n        - If the owner asks to generate a quote manually: \n          1. Ask for Client Name, Email, Phone, and Budget.\n          2. THEN call the 'generate_quote_and_deal' tool immediately.\n        "

/-- The hardcoded `business_rules` block of the customer personas. -/
def business_rules : String :=
  "\n        *** CORE BUSINESS RULES & FACTS (ALWAYS TRUE) ***\n        1. **Financing:** We offer \"8-Months Same-As-Cash\" financing. (NOT 6 or 12).\n        2. **Charity:** We have a \"Paint of Hope\" initiative (Donation to charity with every project).\n        3. **Furniture Partnership:** We have an exclusive partnership with \"Venicasa\" (Luxury European Furniture). Cross-sell this for interior projects.\n        4. **$300 Coupon:** Available for Homeowners ONLY. (Lead Magnet).\n        5. **Realtor Commission:** We offer a 1% Referral Commission to partners (Code: 14F&L101).\n        6. **Approach:** We use \"Personality & Lifestyle Intelligence™\" for design.\n        "

/-- Head of the `base_prompt` f-string, up to the `{context}` hole. -/
def base_prompt_head : String :=
  "You are 'LOFTY', the Exclusive Design Concierge for F&L Design Builders.\n        \n        RETRIEVED CONTEXT (From Knowledge Base):\n        "

/-- Middle of the `base_prompt` f-string between `{context}` and
`{business_rules}`. -/
def base_prompt_mid1 : String :=
  "\n        \n        "

/-- Middle of the `base_prompt` f-string between `{business_rules}` and
`{conversion_instruction}` (the brand-voice and style-rules blocks). -/
def base_prompt_mid2 : String :=
  "\n        \n        *** YOUR BRAND VOICE ***\n        - **Role:** High-end Design Concierge. NOT a robot.\n        - **Tone:** Sophisticated, Warm, Polite, Efficient.\n        - **Mission:** \"Excellence isn't just our promise, it's our standard.\"\n        - **Company:** Woman-Owned, Minority-Owned Design & Build Firm.\n        \n        *** UNIVERSAL STYLE RULES (MANDATORY) ***\n        1. **NO EMOJIS:** Use text only. Maintain a luxury aesthetic.\n        2. **SHORT RESPONSES:** Keep replies under 2-3 sentences unless listing services.\n        3. **BULLET POINTS:** Use bullet points (*) ONLY when listing 3+ items.\n        4. **SMART REPLYING:** If asked about services, DO NOT dump the whole list. Group them or ask for their specific need first.\n        \n        "

/-- Tail of the `base_prompt` f-string after `{conversion_instruction}`. -/
def base_prompt_tail : String :=
  "\n        "

/-- The `base_prompt` f-string of `generate_node`, with `context` and
`conversion_instruction` interpolated. -/
def base_prompt (context conversion_instruction : String) : String :=
  base_prompt_head ++ context ++ base_prompt_mid1 ++ business_rules
    ++ base_prompt_mid2 ++ conversion_instruction ++ base_prompt_tail

/-- Tail of the realtor `persona_prompt` f-string after `{base_prompt}`. -/
def realtor_tail : String :=
  "\n            \n            USER TYPE: REALTOR / INVESTOR / PARTNER.\n            STRATEGY: Focus on ROI, Speed, Market Value, and \"Curb Appeal\".\n            \n            OFFERS TO HIGHLIGHT:\n            1. **1% Referral Commission:** For successful referrals (Influencer Code: 14F&L101).\n            2. **Pre-Listing Packages:** Quick refresh to maximize sale price.\n            3. **Pay at Closing:** Renovate now, pay later options.\n            4. **Partnership:** \"Join our Strategic Partner Program\".\n            \n            TONE: Professional, Business-like, Direct. No fluff.\n            \n            If asked for services, format like this:\n            \"We offer tailored solutions for agents:\n            * Pre-Listing Refresh Packages\n            * Post-Sale Touch-ups\n            * ROI-Focused Renovations\"\n            "

/-- The realtor `persona_prompt` f-string. -/
def realtor_persona_prompt (context conversion_instruction : String) : String :=
  "\n            " ++ base_prompt context conversion_instruction ++ realtor_tail

/-- Tail of the homeowner `persona_prompt` f-string after `{base_prompt}`. -/
def homeowner_tail : String :=
  "\n            \n            USER TYPE: HOMEOWNER.\n            STRATEGY: Emotional Connection, \"Personality & Lifestyle Intelligence™\", Feng Shui.\n            \n            *** DISCOVERY FLOW (Ask ONE by ONE - Do not overwhelm) ***:\n            1. **Phase 1 (Vibe):** Welcome them warmly. Ask about the \"Atmosphere\" or feeling they want (e.g., Calm, Energetic).\n            2. **Phase 2 (Lifestyle):** Ask how they use the space (Entertaining, Kids, Work?).\n            3. **Phase 3 (Energy):** Ask about \"Energy Flow\" or Feng Shui principles.\n            \n            *** HANDLING SPECIFIC SCENARIOS ***:\n            - **\"What do you do?\"** -> \"We specialize in luxury residential transformations. Are you looking for Interior (Kitchen/Bath), Exterior, or a specific room renovation?\"\n            - **\"Quote/Cost?\"** -> \"I can generate a preliminary quote for you. I just need a few details. Shall we start?\" (Then call 'generate_quote_and_deal').\n            - **\"Expensive?\" / \"Budget?\"** -> \"We believe in value without cutting corners. We also offer an exclusive 8-Months Same-As-Cash financing program.\"\n            - **\"Lead Magnet?\" / \"Not Ready?\"** -> \"No problem. I can share our $300 Renovation Coupon and 'Ultimate Renovation Checklist' for when you are ready.\"\n            - **\"Furniture?\"** -> Mention the **Venicasa Partnership** and cross-sell interior styling.\n            \n            Additional Tools:\n            - Use 'check_financing_eligibility' if budget is mentioned.\n            - Use 'get_secure_upload_link' if they want to share photos.\n            "

/-- The homeowner `persona_prompt` f-string. -/
def homeowner_persona_prompt (context conversion_instruction : String) : String :=
  "\n            " ++ base_prompt context conversion_instruction ++ homeowner_tail

/-- The message sanitizer of `generate_node`: an `AIMessage` with empty
content and pending tool calls gets placeholder text (applied by in-place
mutation in the source, so it is visible both in `clean_messages` and in the
state's message objects). -/
def sanitizeMsg (m : Msg) : Msg :=
  if m.role = Role.assistant ∧ m.content = "" ∧ m.toolCalls ≠ [] then
    { m with content := "Processing request..." }
  else m

/-- Sanitization of the whole history (`clean_messages` in the source). -/
def sanitize (ms : List Msg) : List Msg :=
  ms.map sanitizeMsg

/-- Content of the last message of a history, `""` when the history is empty
(`messages[-1].content if messages else ""`). -/
def last_content (ms : List Msg) : String :=
  match ms.getLast? with
  | some m => m.content
  | none => ""

/-- The admin-mode trigger test of `generate_node`. -/
def admin_tokens_present (t : String) : Bool :=
  strContains t "FL_ADMIN_ACCESS" || strContains t "SECRET_KEY_786"

/-- Removal of the admin secret tokens from the user text
(`.replace("FL_ADMIN_ACCESS", "").replace("SECRET_KEY_786", "")`). -/
def strip_admin_tokens (t : String) : String :=
  pyReplace (pyReplace t "FL_ADMIN_ACCESS" "") "SECRET_KEY_786" ""

/-- Count of `HumanMessage`s in the history (`human_msg_count`). -/
def human_count (ms : List Msg) : Nat :=
  (ms.filter (fun m => m.role = Role.user)).length

/-- Outcome of `generate_node` up to the external model call: the composed
system prompt, the history handed to the model, and the history as it remains
in the state (the model's response is appended to the latter by the graph). -/
structure GenResult where
  systemPrompt : String
  llmInput : List Msg
  newMessages : List Msg
deriving DecidableEq, Repr

/-- Selection of the system prompt from the values `generate_node` computes:
admin override first, then realtor/homeowner persona with the conversion
instruction active from the third human message on. -/
def directive_of (context role : String) (human_msg_count : Nat)
    (lastContent : String) : String :=
  if admin_tokens_present lastContent then
    admin_system_prompt context
  else
    let conversion_instruction := if 3 ≤ human_msg_count then conversion_text else ""
    if role = "realtor" then realtor_persona_prompt context conversion_instruction
    else homeowner_persona_prompt context conversion_instruction

/-- The `generate_node` of `agent_graph.py`, up to (not including) the
external `model.invoke` call.  Faithful points: the sanitizer mutates the
state's message objects in place, so `newMessages` is the sanitized history;
`last_msg_content` is read after that mutation; in admin mode the last element
of the local `clean_messages` copy — and only it — is replaced by a
`HumanMessage` with the secret tokens stripped. -/
def generate_node (s : AgentState) : GenResult :=
  let context := s.context.getD ""
  let role := s.user_role.getD "homeowner"
  let clean_messages := sanitize s.messages
  let last_msg_content := last_content clean_messages
  let human_msg_count := human_count s.messages
  let conversion_instruction := if 3 ≤ human_msg_count then conversion_text else ""
  if admin_tokens_present last_msg_content then
    let llm :=
      match clean_messages.getLast? with
      | some m =>
        if m.role = Role.user then
          clean_messages.dropLast
            ++ [{ role := Role.user, content := strip_admin_tokens last_msg_content }]
        else clean_messages
      | none => clean_messages
    { systemPrompt := admin_system_prompt context
      llmInput := llm
      newMessages := clean_messages }
  else
    { systemPrompt :=
        if role = "realtor" then realtor_persona_prompt context conversion_instruction
        else homeowner_persona_prompt context conversion_instruction
      llmInput := clean_messages
      newMessages := clean_messages }

/-- Boolean form of the no-empty-assistant-turn invariant over a history. -/
def no_empty_assistant (ms : List Msg) : Bool :=
  ms.all (fun m => !(m.role == Role.assistant) || !(m.content == ""))

/-! ## HubSpot CRM model (src/hubspot_client.py)

The hosted HubSpot API is the external collaborator; its documented semantics
(contact create fails with status 409 when a contact with the email already
exists, which is the premise of the duplicate-handling code; creates assign
fresh ids; search returns the first match) are modelled by a small CRM state.
The client methods of `HubSpotManager` are translated on top of it (the
token-missing simulation branch, which short-circuits every method to a
constant, is not modelled). -/

/-- A CRM contact record with the properties `create_lead` writes. -/
structure Contact where
  id : Nat
  email : String
  firstname : String
  lastname : String
  phone : String
deriving DecidableEq, Repr

/-- A CRM deal record with the properties `create_deal_with_quote` writes. -/
structure Deal where
  id : Nat
  dealname : String
  amount : String
  dealstage : String
  pipeline : String
  description : String
deriving DecidableEq, Repr

/-- The CRM collaborator state: contacts, deals, deal-contact associations and
the next fresh object id. -/
structure CRMState where
  contacts : List Contact := []
  deals : List Deal := []
  assocs : List (Nat × Nat) := []
  nextId : Nat := 1
deriving DecidableEq, Repr

/-- HubSpot `contacts.basic_api.create`: raises `ApiException` with status 409
when a contact with the same email exists, otherwise creates a contact with a
fresh id. -/
def contactsCreate (st : CRMState) (email firstname lastname phone : String) :
    Except Nat (Nat × CRMState) :=
  if st.contacts.any (fun c => c.email == email) then Except.error 409
  else
    Except.ok (st.nextId,
      { st with
        contacts := st.contacts ++ [⟨st.nextId, email, firstname, lastname, phone⟩]
        nextId := st.nextId + 1 })

/-- The `get_contact_id_by_email` helper: a search with limit 1, returning the
first contact whose email matches, `none` on a miss (or on an API error). -/
def get_contact_id_by_email (st : CRMState) (email : String) : Option Nat :=
  (st.contacts.find? (fun c => c.email == email)).map (fun c => c.id)

/-- Python name splitting used by `create_lead` and `update_contact_details`:
`name.strip().split(" ")`, first part versus the re-joined rest. -/
def pySplitName (name : String) : String × String :=
  match splitOnChar ' ' (pyStrip name) with
  | [] => ("", "")
  | [p] => (p, "")
  | p :: rest => (p, String.intercalate " " rest)

/-- The `update_contact_details` method: overwrite firstname, lastname and
phone of the contact with the given id. -/
def update_contact_details (st : CRMState) (contact_id : Nat) (name phone : String) :
    CRMState :=
  let nameParts := pySplitName name
  { st with
    contacts := st.contacts.map (fun c =>
      if c.id = contact_id then
        { c with firstname := nameParts.1, lastname := nameParts.2, phone := phone }
      else c) }

/-- The `create_lead` method: try to create; on a 409 duplicate, look the
contact up by email, update its name and phone and return the existing id
(falling back to the `"existing_user_..."` marker string when the lookup
misses; any other API failure yields the marker as well). -/
def create_lead (st : CRMState) (name email phone : String) : String × CRMState :=
  let nameParts := pySplitName name
  match contactsCreate st email nameParts.1 nameParts.2 phone with
  | Except.ok (id, st1) => (toString id, st1)
  | Except.error status =>
    if status = 409 then
      match get_contact_id_by_email st email with
      | some existing_id =>
        (toString existing_id, update_contact_details st existing_id name phone)
      | none => ("existing_user_" ++ email, st)
    else ("existing_user_" ++ email, st)

/-! ## clean_budget (src/hubspot_client.py lines 26-42)

Python float arithmetic is modelled exactly: the first regex match
`(\d+\.?\d*)` denotes the rational `n / 10 ^ k` (numerator with the decimal
point dropped over a power of ten), the multiplier scales the numerator, and
`str(float)` is rendered as the terminating decimal expansion — identical to
CPython whenever the value is exactly representable, as in every claim. -/

/-- The maximal regex match `\d+\.?\d*` starting at the head of the list. -/
def numMatch (l : List Char) : List Char :=
  let intPart := l.takeWhile Char.isDigit
  match l.dropWhile Char.isDigit with
  | '.' :: rest2 => intPart ++ '.' :: rest2.takeWhile Char.isDigit
  | _ => intPart

/-- First match of `re.findall(r"(\d+\.?\d*)", _)`: scan to the first digit
and take the maximal match there; `none` when the text has no digit. -/
def firstNumberChars : List Char → Option (List Char)
  | [] => none
  | c :: rest => if c.isDigit then some (numMatch (c :: rest)) else firstNumberChars rest

/-- Value of a digit list as a natural number. -/
def digitsToNat (ds : List Char) : Nat :=
  ds.foldl (fun acc c => acc * 10 + (c.toNat - 48)) 0

/-- Exact value of a `\d+\.?\d*` match as a numerator/denominator pair
`(n, 10 ^ k)` with value `n / 10 ^ k`. -/
def parseDecNat (m : List Char) : Nat × Nat :=
  let ip := m.takeWhile Char.isDigit
  let fp :=
    match m.dropWhile Char.isDigit with
    | '.' :: f => f
    | _ => []
  (digitsToNat ip * 10 ^ fp.length + digitsToNat fp, 10 ^ fp.length)

/-- Numeric outcome of `clean_budget`: `none` models the `"0.00"` fallback
(no number found), `some (n, d)` the value `n / d` after applying the
`k`/`m` multiplier of the lower-cased, comma-free, stripped text. -/
def clean_budget_num (amount_str : String) : Option (Nat × Nat) :=
  let clean_str := pyStrip (pyReplace (pyLower amount_str) "," "")
  let multiplier : Nat :=
    if clean_str.data.contains 'k' then 1000
    else if clean_str.data.contains 'm' then 1000000
    else 1
  (firstNumberChars clean_str.data).map (fun mch =>
    ((parseDecNat mch).1 * multiplier, (parseDecNat mch).2))

/-- Decimal digits of the fractional part `a / b` (with `a < b`), fuel-bounded;
`b` is a power of ten here, so the expansion terminates within the fuel. -/
def fracDigitsAux : Nat → Nat → Nat → List Char
  | _, _, 0 => []
  | a, b, fuel + 1 =>
    if a = 0 then []
    else Char.ofNat (48 + a * 10 / b) :: fracDigitsAux (a * 10 % b) b fuel

/-- CPython `str(float)` for an exactly-representable terminating decimal
`n / d`: integer part, then `.0` or the fractional digits. -/
def pyFloatStr (nd : Nat × Nat) : String :=
  if nd.1 % nd.2 = 0 then toString (nd.1 / nd.2) ++ ".0"
  else toString (nd.1 / nd.2) ++ "." ++ String.mk (fracDigitsAux (nd.1 % nd.2) nd.2 nd.2)

/-- The `clean_budget` method: string result of the numeric outcome, with the
`"0.00"` fallback when no number is found (the catch-all `except` of the
source can fire on no other step of this computation). -/
def clean_budget (amount_str : String) : String :=
  match clean_budget_num amount_str with
  | some nd => pyFloatStr nd
  | none => "0.00"

/-- The `create_deal_with_quote` method: clean the budget, create the deal
with a fresh id, and associate it to the contact when the contact id string is
all digits.  The deal-create API call itself is modelled as succeeding; its
`except` branch returns `"Error creating deal: ..."` on an external failure. -/
def create_deal_with_quote (st : CRMState) (contact_id project_type budget quote_link : String) :
    String × CRMState :=
  let final_amount := clean_budget budget
  let d : Deal :=
    ⟨st.nextId, project_type ++ " Renovation", final_amount, "appointmentscheduled",
      "default", "AI Generated Quote: " ++ quote_link ++ "\nIncludes 8-Month Financing Option."⟩
  let st1 := { st with deals := st.deals ++ [d], nextId := st.nextId + 1 }
  let st2 :=
    if contact_id.data ≠ [] ∧ contact_id.data.all Char.isDigit then
      { st1 with assocs := st1.assocs ++ [(d.id, digitsToNat contact_id.data)] }
    else st1
  (toString d.id, st2)

/-! ## generate_quote_and_deal (src/agent_graph.py lines 72-104)

The PDF renderer (`QuoteGenerator.generate_pdf`) is the external collaborator:
it is modelled as a parameter that either returns a result — a
(path, filename) tuple, or a bare path — or raises (`Except.error`).  The Wix
newsletter sync touches no CRM state and its result is ignored by the source,
so it is not modelled. -/

/-- Result shape of `pdf_engine.generate_pdf` as handled by the tool: a
`(path, filename)` tuple or a single path string. -/
inductive PdfResult where
  | tuple (path filename : String)
  | single (path : String)
deriving DecidableEq, Repr

/-- Python `os.path.basename`: the component after the last slash. -/
def pyBasename (p : String) : String :=
  match (splitOnChar '/' p).getLast? with
  | some b => b
  | none => p

/-- The `generate_quote_and_deal` tool: create the lead, create the deal
first to get its id, bail out if deal creation failed, then render the PDF —
returning a partial-failure string naming the deal id if the renderer raises,
and a success string with the quote link otherwise.  `base_url` models
`os.getenv("API_BASE_URL", "http://localhost:8000")`. -/
def generate_quote_and_deal
    (pdf : String → String → String → String → Except String PdfResult)
    (base_url : String) (st : CRMState)
    (project_type budget user_name email phone : String) : String × CRMState :=
  let r1 := create_lead st user_name email phone
  let contact_id := r1.1
  let r2 := create_deal_with_quote r1.2 contact_id project_type budget "Generating..."
  let deal_id := r2.1
  let st2 := r2.2
  if strContains deal_id "Error" then
    ("Failed to create deal in HubSpot: " ++ deal_id, st2)
  else
    match pdf user_name project_type budget deal_id with
    | Except.ok res =>
      let pdf_filename :=
        match res with
        | PdfResult.tuple _ f => f
        | PdfResult.single p => pyBasename p
      ("Success! Deal " ++ deal_id ++ " Created. Quote Link: "
        ++ (base_url ++ "/quotes/" ++ pdf_filename), st2)
    | Except.error e =>
      ("Deal Created (" ++ deal_id ++ "), but PDF generation failed: " ++ e, st2)

/-! # Theorems -/

set_option maxRecDepth 1000000

/-! ## Helper lemmas about substring containment -/

/-- A prefix of `l` is still a prefix after extending `l` on the right. -/
theorem isPrefixOf_append_right (p l r : List Char) (h : p.isPrefixOf l = true) :
    p.isPrefixOf (l ++ r) = true := by
  induction p generalizing l with
  | nil => simp [List.isPrefixOf]
  | cons c cs ih =>
    cases l with
    | nil => simp [List.isPrefixOf] at h
    | cons d ds =>
      simp only [List.cons_append, List.isPrefixOf, Bool.and_eq_true] at h ⊢
      exact ⟨h.1, ih ds h.2⟩

/-- Substring containment survives extending the haystack on the right. -/
theorem containsSubAux_append_right (l r p : List Char)
    (h : containsSubAux l p = true) : containsSubAux (l ++ r) p = true := by
  induction l with
  | nil =>
    rw [containsSubAux] at h
    have hp : p = [] := by
      cases p with
      | nil => rfl
      | cons c cs => simp [List.isPrefixOf] at h
    subst hp
    cases r <;> simp [containsSubAux, List.isPrefixOf]
  | cons c t ih =>
    rw [containsSubAux] at h
    rw [List.cons_append, containsSubAux]
    rcases Bool.or_eq_true _ _ |>.mp h with h1 | h2
    · exact Bool.or_eq_true _ _ |>.mpr (Or.inl (isPrefixOf_append_right _ _ _ h1))
    · exact Bool.or_eq_true _ _ |>.mpr (Or.inr (ih h2))

/-- Substring containment survives extending the haystack on the left. -/
theorem containsSubAux_append_left (l r p : List Char)
    (h : containsSubAux r p = true) : containsSubAux (l ++ r) p = true := by
  induction l with
  | nil => simpa using h
  | cons c t ih =>
    rw [List.cons_append, containsSubAux]
    exact Bool.or_eq_true _ _ |>.mpr (Or.inr ih)

/-- String form: a substring of `y` is a substring of `x ++ y`. -/
theorem strContains_append_left (x y p : String) (h : strContains y p = true) :
    strContains (x ++ y) p = true := by
  unfold strContains at h ⊢
  rw [String.data_append]
  exact containsSubAux_append_left _ _ _ h

/-- String form: a substring of `x` is a substring of `x ++ y`. -/
theorem strContains_append_right (x y p : String) (h : strContains x p = true) :
    strContains (x ++ y) p = true := by
  unfold strContains at h ⊢
  rw [String.data_append]
  exact containsSubAux_append_right _ _ _ h

/-- A list is a substring of itself: its own prefix. -/
theorem isPrefixOf_self (l : List Char) : l.isPrefixOf l = true := by
  induction l with
  | nil => rfl
  | cons c t ih => simp [List.isPrefixOf, ih]

/-- Every string contains itself as a substring. -/
theorem strContains_self (s : String) : strContains s s = true := by
  unfold strContains
  cases h : s.data with
  | nil => rfl
  | cons c t =>
    rw [containsSubAux, isPrefixOf_self]
    rfl

/-! ## Helper lemmas about characters and pyReplace -/

/-- Order on `UInt32` through `toNat`. -/
theorem uint32_le_iff (a b : UInt32) : a ≤ b ↔ a.toNat ≤ b.toNat := by
  rw [UInt32.le_def, BitVec.le_def]
  exact Iff.rfl

/-- Digit test as a `toNat` interval. -/
theorem char_isDigit_iff (c : Char) : c.isDigit = true ↔ 48 ≤ c.toNat ∧ c.toNat ≤ 57 := by
  unfold Char.isDigit
  rw [Bool.and_eq_true, decide_eq_true_eq, decide_eq_true_eq, ge_iff_le,
    uint32_le_iff, uint32_le_iff]
  exact Iff.rfl

/-- Case folding never turns a character into a digit or a digit into a
non-digit. -/
theorem toLower_isDigit (c : Char) : c.toLower.isDigit = c.isDigit := by
  unfold Char.toLower
  simp only []
  by_cases h : c.toNat ≥ 65 ∧ c.toNat ≤ 90
  · rw [if_pos h]
    obtain ⟨h1, h2⟩ := h
    have hval : (Char.ofNat (c.toNat + 32)).toNat = c.toNat + 32 := by
      have hv : Nat.isValidChar (c.toNat + 32) := by left; omega
      rw [Char.ofNat, dif_pos hv]
      rfl
    have hA : (Char.ofNat (c.toNat + 32)).isDigit = false := by
      rw [Bool.eq_false_iff]
      intro hd
      have := (char_isDigit_iff _).mp hd
      omega
    have hB : c.isDigit = false := by
      rw [Bool.eq_false_iff]
      intro hd
      have := (char_isDigit_iff _).mp hd
      omega
    rw [hA, hB]
  · rw [if_neg h]

/-- Characters of a replacement result come from the replacement text or the
original list. -/
theorem mem_pyReplaceFuel (pat rep : List Char) :
    ∀ (fuel : Nat) (l : List Char), ∀ c ∈ pyReplaceFuel pat rep fuel l, c ∈ rep ∨ c ∈ l := by
  intro fuel
  induction fuel with
  | zero =>
    intro l c hc
    cases l with
    | nil => simp [pyReplaceFuel] at hc
    | cons x t => simp only [pyReplaceFuel] at hc; exact Or.inr hc
  | succ f ih =>
    intro l c hc
    cases l with
    | nil => simp [pyReplaceFuel] at hc
    | cons x t =>
      rw [pyReplaceFuel] at hc
      by_cases hcond : pat ≠ [] ∧ pat.isPrefixOf (x :: t) = true
      · rw [if_pos hcond] at hc
        rcases List.mem_append.mp hc with h1 | h2
        · exact Or.inl h1
        · rcases ih _ c h2 with h3 | h4
          · exact Or.inl h3
          · exact Or.inr (List.drop_subset _ _ h4)
      · rw [if_neg hcond] at hc
        rcases List.mem_cons.mp hc with rfl | h2
        · exact Or.inr (List.mem_cons_self _ _)
        · rcases ih t c h2 with h3 | h4
          · exact Or.inl h3
          · exact Or.inr (List.mem_cons_of_mem _ h4)

/-- A digit-free input stays digit-free through lower-casing, comma removal
and stripping. -/
theorem clean_no_digit (s : String) (h : ∀ c ∈ s.data, c.isDigit = false) :
    ∀ c ∈ (pyStrip (pyReplace (pyLower s) "," "")).data, c.isDigit = false := by
  intro c hc
  simp only [pyStrip] at hc
  rw [List.mem_reverse] at hc
  have hc2 := (List.dropWhile_sublist _).subset hc
  rw [List.mem_reverse] at hc2
  have hc3 := (List.dropWhile_sublist _).subset hc2
  simp only [pyReplace] at hc3
  rcases mem_pyReplaceFuel _ _ _ _ c hc3 with hrep | horig
  · simp at hrep
  · simp only [pyLower] at horig
    rw [List.mem_map] at horig
    obtain ⟨c0, hc0, rfl⟩ := horig
    rw [toLower_isDigit]
    exact h c0 hc0

/-- The number scan misses on digit-free text. -/
theorem firstNumberChars_eq_none (l : List Char) (h : ∀ c ∈ l, c.isDigit = false) :
    firstNumberChars l = none := by
  induction l with
  | nil => rfl
  | cons c t ih =>
    rw [firstNumberChars]
    simp only [h c (List.mem_cons_self _ _), Bool.false_eq_true, if_false]
    exact ih (fun x hx => h x (List.mem_cons_of_mem _ hx))

/-! ## Helper lemmas about the CRM model -/

/-- The deal id string returned by `create_deal_with_quote` is the fresh id. -/
theorem create_deal_with_quote_fst (st : CRMState) (cid pt b l : String) :
    (create_deal_with_quote st cid pt b l).1 = toString st.nextId := rfl

/-- The deal list after `create_deal_with_quote`: the old deals plus the new
deal carrying the cleaned budget as its amount. -/
theorem create_deal_with_quote_deals (st : CRMState) (cid pt b l : String) :
    (create_deal_with_quote st cid pt b l).2.deals =
      st.deals ++ [⟨st.nextId, pt ++ " Renovation", clean_budget b, "appointmentscheduled",
        "default", "AI Generated Quote: " ++ l ++ "\nIncludes 8-Month Financing Option."⟩] := by
  simp only [create_deal_with_quote]
  split
  · rfl
  · rfl

/-- A failing email search stays failing after an email-preserving update of
every contact. -/
theorem find?_email_map_none (l : List Contact) (email : String)
    (h : l.find? (fun c => c.email == email) = none)
    (u : Contact → Contact) (hu : ∀ c, (u c).email = c.email) :
    (l.map u).find? (fun c => c.email == email) = none := by
  rw [List.find?_eq_none] at h ⊢
  intro x hx
  rw [List.mem_map] at hx
  obtain ⟨c, hc, rfl⟩ := hx
  rw [hu]
  exact h c hc

/-! ## Helper lemmas about generate_node -/

/-- Characterization of the system prompt composed by `generate_node`: it is a
function of the retrieved context, the user role, the human-message count and
the (sanitized) last message content only. -/
theorem generate_node_systemPrompt (s : AgentState) :
    (generate_node s).systemPrompt =
      directive_of (s.context.getD "") (s.user_role.getD "homeowner")
        (human_count s.messages) (last_content (sanitize s.messages)) := by
  simp only [generate_node, directive_of]
  split
  · rfl
  · rfl

/-- Helper: a history whose assistant messages are all non-empty satisfies the
Boolean invariant. -/
theorem no_empty_assistant_of (ms : List Msg)
    (h : ∀ m ∈ ms, m.role = Role.assistant → m.content ≠ "") :
    no_empty_assistant ms = true := by
  rw [no_empty_assistant, List.all_eq_true]
  intro m hm
  by_cases hr : m.role = Role.assistant
  · have hc := h m hm hr
    simp [hr, hc]
  · simp [hr]

/-- Sanitization leaves no empty assistant message, provided every empty
assistant message of the input carried a pending tool call. -/
theorem sanitize_no_empty (ms : List Msg)
    (h : ∀ m ∈ ms, m.role = Role.assistant → m.content = "" → m.toolCalls ≠ []) :
    ∀ m ∈ sanitize ms, m.role = Role.assistant → m.content ≠ "" := by
  intro m hm hr
  rw [sanitize, List.mem_map] at hm
  obtain ⟨m0, hm0, rfl⟩ := hm
  unfold sanitizeMsg at hr ⊢
  by_cases hcond : m0.role = Role.assistant ∧ m0.content = "" ∧ m0.toolCalls ≠ []
  · simp only [if_pos hcond]
    intro hfalse
    simp at hfalse
  · simp only [if_neg hcond] at hr ⊢
    intro hempty
    exact hcond ⟨hr, hempty, h m0 hm0 hr hempty⟩

/-- The `base_prompt` contains every substring of its interpolated
`conversion_instruction`, whatever the context is. -/
theorem base_prompt_contains (ctx conv pat : String)
    (hp : strContains conv pat = true) :
    strContains (base_prompt ctx conv) pat = true := by
  unfold base_prompt
  exact strContains_append_right _ _ _ (strContains_append_left _ _ _ hp)

/-- The realtor persona prompt contains every substring of its interpolated
`conversion_instruction`. -/
theorem realtor_prompt_contains (ctx conv pat : String)
    (hp : strContains conv pat = true) :
    strContains (realtor_persona_prompt ctx conv) pat = true := by
  unfold realtor_persona_prompt
  exact strContains_append_right _ _ _
    (strContains_append_left _ _ _ (base_prompt_contains _ _ _ hp))

/-- The homeowner persona prompt contains every substring of its interpolated
`conversion_instruction`. -/
theorem homeowner_prompt_contains (ctx conv pat : String)
    (hp : strContains conv pat = true) :
    strContains (homeowner_persona_prompt ctx conv) pat = true := by
  unfold homeowner_persona_prompt
  exact strContains_append_right _ _ _
    (strContains_append_left _ _ _ (base_prompt_contains _ _ _ hp))

/-! ## C1 — sticky segment -/

/-- C1.  Sticky segment: once the session's `user_role` is `"homeowner"` or
`"realtor"`, `classify_user_node` returns it unchanged, whatever the message
history contains. -/
theorem C1_sticky_segment (s : AgentState) (r : String)
    (h1 : s.user_role = some r) (h2 : r = "homeowner" ∨ r = "realtor") :
    classify_user_node s = Except.ok r := by
  rcases h2 with rfl | rfl <;> simp [classify_user_node, h1]

/-- C1 witness: a session already classified as homeowner stays homeowner even
when the later user message is full of realtor keywords. -/
theorem C1_sticky_segment_witness :
    classify_user_node
      { messages := [{ role := Role.user, content := "I am selling my listing, what is the ROI?" }],
        user_role := some "homeowner" } = Except.ok "homeowner" :=
  C1_sticky_segment _ "homeowner" rfl (Or.inl rfl)

/-! ## C2 — scripted-flow determinism (refuted: no forcing exists) -/

/-- C2 counterexample.  Two histories that differ only in the text of the last
assistant message — one ends with a style question, the other with a timeline
question — produce the identical system directive, and that directive does not
contain the scheduling link at all.  The claim requires the first history to
force the verbatim timeline question and the second to force the verbatim
booking-link message (which carries the Calendly link), so it fails here. -/
theorem C2_counterexample :
    (generate_node
      { messages :=
          [{ role := Role.user, content := "I want to renovate my kitchen" },
           { role := Role.assistant,
             content := "Which of these four styles do you prefer: Modern, Traditional, Coastal, or Transitional?" },
           { role := Role.user, content := "Modern" }],
        user_role := some "homeowner", context := some "" }).systemPrompt
      = (generate_node
      { messages :=
          [{ role := Role.user, content := "I want to renovate my kitchen" },
           { role := Role.assistant,
             content := "How soon are you looking to start your project?" },
           { role := Role.user, content := "Modern" }],
        user_role := some "homeowner", context := some "" }).systemPrompt
    ∧ strContains (generate_node
      { messages :=
          [{ role := Role.user, content := "I want to renovate my kitchen" },
           { role := Role.assistant,
             content := "How soon are you looking to start your project?" },
           { role := Role.user, content := "Modern" }],
        user_role := some "homeowner", context := some "" }).systemPrompt "calendly" = false := by
  constructor
  · rw [generate_node_systemPrompt, generate_node_systemPrompt]
    rfl
  · rw [generate_node_systemPrompt]
    decide

/-- C2 amended.  `generate_node` performs no scripted-stage forcing: the
composed directive is a function only of the retrieved context, the user role,
whether the human-message count reached 3, and the last message's (sanitized)
text; it never inspects earlier assistant messages, so a history ending with
the style question and one ending with the timeline question receive the same
directive.  The discovery flow exists only as prompt guidance inside the
homeowner persona. -/
theorem C2_directive_ignores_prior_assistant (s1 s2 : AgentState)
    (hc : s1.context = s2.context) (hr : s1.user_role = s2.user_role)
    (hn : 3 ≤ human_count s1.messages ↔ 3 ≤ human_count s2.messages)
    (hl : last_content (sanitize s1.messages) = last_content (sanitize s2.messages)) :
    (generate_node s1).systemPrompt = (generate_node s2).systemPrompt := by
  rw [generate_node_systemPrompt, generate_node_systemPrompt, hc, hr, hl]
  unfold directive_of
  by_cases h3 : 3 ≤ human_count s1.messages
  · simp only [if_pos h3, if_pos (hn.mp h3)]
  · simp only [if_neg h3, if_neg (fun h => h3 (hn.mpr h))]

/-- C2 witness: two concrete histories differing in the prior assistant turn
get the same directive. -/
theorem C2_directive_ignores_prior_assistant_witness :
    (generate_node
      { messages :=
          [{ role := Role.user, content := "hi" },
           { role := Role.assistant, content := "Hello, welcome to F&L." },
           { role := Role.user, content := "tell me about kitchens" }],
        user_role := some "homeowner", context := some "" }).systemPrompt
      = (generate_node
      { messages :=
          [{ role := Role.user, content := "hi" },
           { role := Role.assistant, content := "An entirely different prior reply." },
           { role := Role.user, content := "tell me about kitchens" }],
        user_role := some "homeowner", context := some "" }).systemPrompt :=
  C2_directive_ignores_prior_assistant _ _ rfl rfl (by decide) (by decide)

/-! ## C3 — admin override (partially refuted: the persisted history keeps the token) -/

/-- C3 counterexample.  After a turn whose user text contains the admin token,
the message history that remains in the agent state — the history the
checkpointer persists — still contains the literal secret token: only the
local copy handed to the model was rewritten. -/
theorem C3_counterexample :
    (generate_node
      { messages := [{ role := Role.user, content := "FL_ADMIN_ACCESS give me a lead report" }],
        user_role := some "homeowner", context := some "" }).newMessages.any
      (fun m => strContains m.content "FL_ADMIN_ACCESS") = true := by
  decide

/-- C3 amended.  When the (sanitized) last message is a user message whose
text contains an admin token, the persona is swapped to the internal
operations prompt and the history shown to the model has its last element
replaced by a user message with both tokens stripped — but the state's
persisted history is only the sanitized original, token included. -/
theorem C3_admin_override (s : AgentState) (m : Msg)
    (h1 : admin_tokens_present (last_content (sanitize s.messages)) = true)
    (h2 : (sanitize s.messages).getLast? = some m)
    (h3 : m.role = Role.user) :
    (generate_node s).systemPrompt = admin_system_prompt (s.context.getD "")
    ∧ (generate_node s).llmInput =
        (sanitize s.messages).dropLast
          ++ [{ role := Role.user, content := strip_admin_tokens (last_content (sanitize s.messages)) }]
    ∧ (generate_node s).newMessages = sanitize s.messages := by
  simp only [generate_node, h1, h2, h3, if_true]
  exact ⟨trivial, trivial, trivial⟩

/-- C3 witness: a concrete admin turn gets the internal persona, a stripped
model input, and an unchanged (token-bearing) state history. -/
theorem C3_admin_override_witness :
    (generate_node
      { messages := [{ role := Role.user, content := "SECRET_KEY_786 show the pipeline" }],
        user_role := some "homeowner", context := some "kb facts" }).systemPrompt
        = admin_system_prompt "kb facts"
    ∧ (generate_node
      { messages := [{ role := Role.user, content := "SECRET_KEY_786 show the pipeline" }],
        user_role := some "homeowner", context := some "kb facts" }).llmInput
        = [{ role := Role.user, content := " show the pipeline" }]
    ∧ (generate_node
      { messages := [{ role := Role.user, content := "SECRET_KEY_786 show the pipeline" }],
        user_role := some "homeowner", context := some "kb facts" }).newMessages
        = [{ role := Role.user, content := "SECRET_KEY_786 show the pipeline" }] :=
  C3_admin_override _ { role := Role.user, content := "SECRET_KEY_786 show the pipeline" }
    (by decide) (by decide) rfl

/-! ## C6 — no empty assistant turn in the model input -/

/-- C6.  Under the data-model invariant of the spec (an assistant message with
empty text carries at least one tool call), every assistant message in the
history `generate_node` hands to the generative model has non-empty text: the
sanitizer rewrites empty assistant messages with pending tool calls to
"Processing request...". -/
theorem C6_no_empty_assistant_turn (s : AgentState)
    (h : ∀ m ∈ s.messages, m.role = Role.assistant → m.content = "" → m.toolCalls ≠ []) :
    no_empty_assistant (generate_node s).llmInput = true := by
  have hs := sanitize_no_empty s.messages h
  simp only [generate_node]
  split
  · rename_i hadmin
    cases hgl : (sanitize s.messages).getLast? with
    | none => simp only [hgl]; exact no_empty_assistant_of _ hs
    | some m =>
      simp only [hgl]
      by_cases hr : m.role = Role.user
      · simp only [if_pos hr]
        apply no_empty_assistant_of
        intro x hx hxr
        rcases List.mem_append.mp hx with hx1 | hx2
        · exact hs x (List.mem_of_mem_dropLast hx1) hxr
        · rcases List.mem_singleton.mp hx2 with rfl
          nomatch hxr
      · simp only [if_neg hr]
        exact no_empty_assistant_of _ hs
  · exact no_empty_assistant_of _ hs

/-- C6 witness: a history with an empty tool-calling assistant message yields
a model input with no empty assistant turn. -/
theorem C6_no_empty_assistant_turn_witness :
    no_empty_assistant (generate_node
      { messages :=
          [{ role := Role.user, content := "please save my details" },
           { role := Role.assistant, content := "", toolCalls := ["save_lead_to_hubspot"] }],
        user_role := some "homeowner", context := some "" }).llmInput = true :=
  C6_no_empty_assistant_turn _ (by decide)

/-! ## C7 — conversion trigger (refuted as stated: admin turns omit it, and it
is embedded mid-prompt rather than appended at the end) -/

/-- C7 counterexample.  A turn with three human messages whose last text
contains the admin token composes a system instruction without the scheduling
call-to-action or Calendly link anywhere, although the claim requires them on
every turn at or past the threshold. -/
theorem C7_counterexample :
    3 ≤ human_count
      [{ role := Role.user, content := "hi" },
       { role := Role.assistant, content := "Hello!" },
       { role := Role.user, content := "I want a quote" },
       { role := Role.assistant, content := "Sure." },
       { role := Role.user, content := "FL_ADMIN_ACCESS summarize recent leads" }]
    ∧ strContains (generate_node
      { messages :=
          [{ role := Role.user, content := "hi" },
           { role := Role.assistant, content := "Hello!" },
           { role := Role.user, content := "I want a quote" },
           { role := Role.assistant, content := "Sure." },
           { role := Role.user, content := "FL_ADMIN_ACCESS summarize recent leads" }],
        user_role := some "homeowner", context := some "" }).systemPrompt "calendly" = false := by
  constructor
  · decide
  · rw [generate_node_systemPrompt]
    decide

/-- C7 amended.  On every non-admin turn whose history has at least three
human messages, the composed system instruction contains the mandatory
call-to-action sentence and the Calendly link (interpolated at the end of the
shared base prompt, with persona-specific guidance following it); admin-token
turns omit the trigger entirely. -/
theorem C7_conversion_trigger (s : AgentState)
    (h1 : 3 ≤ human_count s.messages)
    (h2 : admin_tokens_present (last_content (sanitize s.messages)) = false) :
    strContains (generate_node s).systemPrompt
        "Would you like to schedule a call with one of our experts for a more detailed discussion?" = true
    ∧ strContains (generate_node s).systemPrompt
        "👉 [https://calendly.com/fandlgroupllc/30min]" = true := by
  rw [generate_node_systemPrompt]
  unfold directive_of
  simp only [h2, Bool.false_eq_true, if_false, if_pos h1]
  have hcta : strContains conversion_text
      "Would you like to schedule a call with one of our experts for a more detailed discussion?" = true := by
    decide
  have hlink : strContains conversion_text
      "👉 [https://calendly.com/fandlgroupllc/30min]" = true := by
    decide
  by_cases hrole : s.user_role.getD "homeowner" = "realtor"
  · simp only [if_pos hrole]
    exact ⟨realtor_prompt_contains _ _ _ hcta, realtor_prompt_contains _ _ _ hlink⟩
  · simp only [if_neg hrole]
    exact ⟨homeowner_prompt_contains _ _ _ hcta, homeowner_prompt_contains _ _ _ hlink⟩

/-- C7 witness: a concrete third-human-message turn has both the
call-to-action sentence and the Calendly link in its system instruction. -/
theorem C7_conversion_trigger_witness :
    strContains (generate_node
      { messages :=
          [{ role := Role.user, content := "hello" },
           { role := Role.assistant, content := "Welcome to F&L." },
           { role := Role.user, content := "kitchen remodel" },
           { role := Role.assistant, content := "Great choice." },
           { role := Role.user, content := "what about cost?" }],
        user_role := some "homeowner", context := some "" }).systemPrompt
        "Would you like to schedule a call with one of our experts for a more detailed discussion?" = true
    ∧ strContains (generate_node
      { messages :=
          [{ role := Role.user, content := "hello" },
           { role := Role.assistant, content := "Welcome to F&L." },
           { role := Role.user, content := "kitchen remodel" },
           { role := Role.assistant, content := "Great choice." },
           { role := Role.user, content := "what about cost?" }],
        user_role := some "homeowner", context := some "" }).systemPrompt
        "👉 [https://calendly.com/fandlgroupllc/30min]" = true :=
  C7_conversion_trigger _ (by decide) (by decide)

/-! ## C4 — partial-failure surfacing in generate_quote_and_deal -/

/-- C4.  When deal creation returned a deal id (no error marker) and the PDF
renderer raises, the tool returns the explicit partial-failure string carrying
that deal id — no exception escapes — and the CRM state still holds the
created deal (no rollback). -/
theorem C4_partial_failure (st : CRMState)
    (base_url project_type budget user_name email phone e did : String)
    (h1 : (create_deal_with_quote (create_lead st user_name email phone).2
            (create_lead st user_name email phone).1 project_type budget "Generating...").1 = did)
    (h2 : strContains did "Error" = false) :
    (generate_quote_and_deal (fun _ _ _ _ => Except.error e) base_url st
        project_type budget user_name email phone).1
      = "Deal Created (" ++ did ++ "), but PDF generation failed: " ++ e
    ∧ strContains (generate_quote_and_deal (fun _ _ _ _ => Except.error e) base_url st
        project_type budget user_name email phone).1 did = true
    ∧ (generate_quote_and_deal (fun _ _ _ _ => Except.error e) base_url st
        project_type budget user_name email phone).2
      = (create_deal_with_quote (create_lead st user_name email phone).2
          (create_lead st user_name email phone).1 project_type budget "Generating...").2
    ∧ ∃ d ∈ (generate_quote_and_deal (fun _ _ _ _ => Except.error e) base_url st
        project_type budget user_name email phone).2.deals, toString d.id = did := by
  have hdid : did = toString (create_lead st user_name email phone).2.nextId := by
    rw [← h1, create_deal_with_quote_fst]
  simp only [generate_quote_and_deal, h1, h2, Bool.false_eq_true, if_false]
  refine ⟨trivial, ?_, trivial, ?_⟩
  · apply strContains_append_right
    apply strContains_append_right
    apply strContains_append_left
    exact strContains_self did
  · refine ⟨⟨(create_lead st user_name email phone).2.nextId, project_type ++ " Renovation",
      clean_budget budget, "appointmentscheduled", "default",
      "AI Generated Quote: " ++ "Generating..." ++ "\nIncludes 8-Month Financing Option."⟩, ?_, ?_⟩
    · rw [create_deal_with_quote_deals]
      exact List.mem_append_right _ (List.mem_singleton.mpr rfl)
    · exact hdid.symm

/-- C4 witness: a concrete run with a raising renderer yields the
partial-failure string with deal id 2 and keeps the deal. -/
theorem C4_partial_failure_witness :
    (generate_quote_and_deal (fun _ _ _ _ => Except.error "disk full")
        "http://localhost:8000" {} "Kitchen" "$45k" "John Doe" "j@x.com" "123").1
      = "Deal Created (2), but PDF generation failed: disk full"
    ∧ strContains (generate_quote_and_deal (fun _ _ _ _ => Except.error "disk full")
        "http://localhost:8000" {} "Kitchen" "$45k" "John Doe" "j@x.com" "123").1 "2" = true
    ∧ (generate_quote_and_deal (fun _ _ _ _ => Except.error "disk full")
        "http://localhost:8000" {} "Kitchen" "$45k" "John Doe" "j@x.com" "123").2
      = (create_deal_with_quote (create_lead {} "John Doe" "j@x.com" "123").2
          (create_lead {} "John Doe" "j@x.com" "123").1 "Kitchen" "$45k" "Generating...").2
    ∧ ∃ d ∈ (generate_quote_and_deal (fun _ _ _ _ => Except.error "disk full")
        "http://localhost:8000" {} "Kitchen" "$45k" "John Doe" "j@x.com" "123").2.deals,
        toString d.id = "2" :=
  C4_partial_failure {} "http://localhost:8000" "Kitchen" "$45k" "John Doe" "j@x.com" "123"
    "disk full" "2" (by decide) (by decide)

/-! ## C5 — retriever failure tolerance (refuted: the search call is not guarded) -/

/-- C5 counterexample.  With a raising search capability, `retrieve_node`
propagates the exception; it does not return empty context. -/
theorem C5_counterexample :
    retrieve_node (fun _ _ => Except.error "TimeoutError")
      { messages := [{ role := Role.user, content := "do you do bathrooms?" }],
        user_role := some "homeowner", context := none } = Except.error "TimeoutError"
    ∧ retrieve_node (fun _ _ => Except.error "TimeoutError")
      { messages := [{ role := Role.user, content := "do you do bathrooms?" }],
        user_role := some "homeowner", context := none } ≠ Except.ok "" := by
  refine ⟨rfl, ?_⟩
  intro h
  nomatch h

/-- C5 amended.  `retrieve_node` returns the empty string (never `none`) when
the search yields no passages, but a raising search propagates unhandled:
there is no try/except around `vectorstore.similarity_search`. -/
theorem C5_retriever_failure (e : String) (s : AgentState) (m : Msg)
    (h : s.messages.getLast? = some m) :
    retrieve_node (fun _ _ => Except.error e) s = Except.error e
    ∧ retrieve_node (fun _ _ => Except.ok []) s = Except.ok "" := by
  unfold retrieve_node
  rw [h]
  constructor
  · rfl
  · rfl

/-- C5 witness: a concrete turn with an erroring search propagates the error,
and with an empty result set returns empty context. -/
theorem C5_retriever_failure_witness :
    retrieve_node (fun _ _ => Except.error "PineconeApiException")
      { messages := [{ role := Role.user, content := "pricing?" }],
        user_role := some "realtor", context := none } = Except.error "PineconeApiException"
    ∧ retrieve_node (fun _ _ => Except.ok [])
      { messages := [{ role := Role.user, content := "pricing?" }],
        user_role := some "realtor", context := none } = Except.ok "" :=
  C5_retriever_failure "PineconeApiException" _
    { role := Role.user, content := "pricing?" } rfl

/-! ## C8 — idempotent lead save -/

/-- C8.  Creating a lead twice with the same email (fresh in the initial CRM
state) converges: the second call hits the 409 duplicate path, updates the
existing contact's name and phone in place, creates no second contact, and
returns the same contact id as the first call. -/
theorem C8_idempotent_lead_save (st : CRMState) (email n1 p1 n2 p2 : String)
    (h : ∀ c ∈ st.contacts, c.email ≠ email) :
    (create_lead (create_lead st n1 email p1).2 n2 email p2).1
      = (create_lead st n1 email p1).1
    ∧ (create_lead st n1 email p1).1 = toString st.nextId
    ∧ (create_lead (create_lead st n1 email p1).2 n2 email p2).2.contacts.length
      = (create_lead st n1 email p1).2.contacts.length
    ∧ (create_lead (create_lead st n1 email p1).2 n2 email p2).2.contacts.find?
        (fun c => c.email == email)
      = some ⟨st.nextId, email, (pySplitName n2).1, (pySplitName n2).2, p2⟩ := by
  have hany : st.contacts.any (fun c => c.email == email) = false := by
    rw [List.any_eq_false]
    intro c hc
    simp only [beq_iff_eq]
    exact h c hc
  have hfind : st.contacts.find? (fun c => c.email == email) = none := by
    rw [List.find?_eq_none]
    intro c hc
    simp only [beq_iff_eq]
    exact h c hc
  have hr1 : create_lead st n1 email p1
      = (toString st.nextId,
        { st with
          contacts := st.contacts
            ++ [⟨st.nextId, email, (pySplitName n1).1, (pySplitName n1).2, p1⟩]
          nextId := st.nextId + 1 }) := by
    simp only [create_lead, contactsCreate, hany]
    rfl
  have hany2 : (st.contacts
      ++ [(⟨st.nextId, email, (pySplitName n1).1, (pySplitName n1).2, p1⟩ : Contact)]).any
        (fun c => c.email == email) = true := by
    rw [List.any_append]
    simp
  have hfind2 : (st.contacts
      ++ [(⟨st.nextId, email, (pySplitName n1).1, (pySplitName n1).2, p1⟩ : Contact)]).find?
        (fun c => c.email == email)
      = some ⟨st.nextId, email, (pySplitName n1).1, (pySplitName n1).2, p1⟩ := by
    rw [List.find?_append, hfind]
    simp
  rw [hr1]
  simp only [create_lead, contactsCreate, get_contact_id_by_email, hany2, if_true, if_pos rfl]
  rw [hfind2]
  simp only [Option.map_some']
  refine ⟨trivial, trivial, ?_, ?_⟩
  · simp [update_contact_details]
  · simp only [update_contact_details, List.map_append, List.find?_append]
    rw [find?_email_map_none st.contacts email hfind _ (by
      intro c
      by_cases hid : c.id = st.nextId
      · simp [hid]
      · simp [hid])]
    simp

/-- C8 witness: saving the same email twice in an empty CRM yields contact id
1 both times, a single stored contact, and the second call's name and phone. -/
theorem C8_idempotent_lead_save_witness :
    (create_lead (create_lead {} "John Doe" "j@x.com" "111").2 "Johnny Dee Doe" "j@x.com" "222").1
      = "1"
    ∧ (create_lead {} "John Doe" "j@x.com" "111").1 = "1"
    ∧ (create_lead (create_lead {} "John Doe" "j@x.com" "111").2
        "Johnny Dee Doe" "j@x.com" "222").2.contacts.length = 1
    ∧ (create_lead (create_lead {} "John Doe" "j@x.com" "111").2
        "Johnny Dee Doe" "j@x.com" "222").2.contacts.find? (fun c => c.email == "j@x.com")
      = some ⟨1, "j@x.com", "Johnny", "Dee Doe", "222"⟩ :=
  C8_idempotent_lead_save {} "j@x.com" "John Doe" "111" "Johnny Dee Doe" "222" (by decide)

/-! ## C9 — budget normalization for "$45k" -/

/-- C9.  `clean_budget` turns `"$45k"` into the numeric value 45000 (rendered
`"45000.0"`, the exact value 45000/1), and `create_deal_with_quote` stores
exactly that cleaned value as the created deal's amount. -/
theorem C9_budget_normalization :
    clean_budget "$45k" = "45000.0"
    ∧ clean_budget_num "$45k" = some (45000, 1)
    ∧ ∀ (st : CRMState) (contact_id quote_link : String),
        (create_deal_with_quote st contact_id "Kitchen" "$45k" quote_link).2.deals.getLast?
          = some ⟨st.nextId, "Kitchen Renovation", "45000.0", "appointmentscheduled", "default",
              "AI Generated Quote: " ++ quote_link ++ "\nIncludes 8-Month Financing Option."⟩ := by
  refine ⟨by decide, by decide, ?_⟩
  intro st cid ql
  rw [create_deal_with_quote_deals, List.getLast?_concat,
    show clean_budget "$45k" = "45000.0" from by decide]
  rfl

/-! ## C10 — clean_budget totality, fallback and multipliers -/

/-- C10.  `clean_budget` is total by construction (every branch returns a
string, mirroring the catch-all `except`): a digit-free input falls back to
`"0.00"`; a `k` in the cleaned lower-cased text multiplies the first number
found by 1000, and an `m` (with no `k`) multiplies it by 1000000 — stated on
the exact numerator/denominator value `clean_budget_num`. -/
theorem C10_clean_budget_safety (s : String) :
    ((∀ c ∈ s.data, c.isDigit = false) → clean_budget s = "0.00")
    ∧ (∀ mch, (pyStrip (pyReplace (pyLower s) "," "")).data.contains 'k' = true →
        firstNumberChars (pyStrip (pyReplace (pyLower s) "," "")).data = some mch →
        clean_budget_num s = some ((parseDecNat mch).1 * 1000, (parseDecNat mch).2))
    ∧ (∀ mch, (pyStrip (pyReplace (pyLower s) "," "")).data.contains 'k' = false →
        (pyStrip (pyReplace (pyLower s) "," "")).data.contains 'm' = true →
        firstNumberChars (pyStrip (pyReplace (pyLower s) "," "")).data = some mch →
        clean_budget_num s = some ((parseDecNat mch).1 * 1000000, (parseDecNat mch).2)) := by
  refine ⟨?_, ?_, ?_⟩
  · intro h
    simp only [clean_budget, clean_budget_num,
      firstNumberChars_eq_none _ (clean_no_digit s h), Option.map_none']
  · intro mch hk hfind
    simp only [clean_budget_num, hk, if_true, hfind]
    rfl
  · intro mch hk hm hfind
    simp only [clean_budget_num, hk, hm, Bool.false_eq_true, if_false, if_true, hfind]
    rfl

/-- C10 witness: a digit-free input yields "0.00"; "$45.5k" yields the exact
value 455000/10 = 45500; "2m" yields 2000000. -/
theorem C10_clean_budget_safety_witness :
    clean_budget "no digits here!" = "0.00"
    ∧ clean_budget_num "$45.5k" = some (455000, 10)
    ∧ clean_budget_num "2m" = some (2000000, 1) :=
  ⟨(C10_clean_budget_safety "no digits here!").1 (by decide),
   (C10_clean_budget_safety "$45.5k").2.1 "45.5".data (by decide) (by decide),
   (C10_clean_budget_safety "2m").2.2 "2".data (by decide) (by decide) (by decide)⟩

end LoftAI
